import Mathlib

/-!
Verification of the self-introduction rubric scorer (src/app.py).

The scoring pipeline of `app.py` is embedded shallowly:

* Strings are Lean `String`s; Python's `text.lower()` is ASCII lower-casing
  (`Char.toLower`), which agrees with CPython on the ASCII transcripts the
  rubric's pattern tables target.
* Python floats are modelled as `ℚ`; every quantity the rubric computes
  (words-per-minute, error rates, type-token ratio, filler rate) is a ratio of
  integers, so rational arithmetic is the exact mathematical content of the code.
* The two external collaborators (grammar checker `grammar_tool.check`,
  sentiment analyzer `sentiment_analyzer.polarity_scores`) are oracles: the
  pure core takes their successful outputs (an error count, a positive
  probability) as arguments, and `score_transcript_ex` wraps the core with
  `Except`-valued collaborator results to model Python exception propagation.
* `round(x, 2)` is `round2`; at its only call site the argument is an integer,
  where every tie-breaking convention agrees with Python's bankers rounding.
-/

/-- Python's `\w` word character over ASCII: letters, digits, underscore.
Used by `re.findall(r"\b\w+\b", ...)` (src/app.py line 92). -/
def isWordChar (c : Char) : Bool := c.isAlphanum || c == '_'

/-- Lower-cased character list of a transcript: `text.lower()` over ASCII. -/
def lower_chars (text : String) : List Char := text.toList.map Char.toLower

/-- Accumulator pass splitting a character list into maximal runs of word
characters, mirroring `re.findall(r"\b\w+\b", text_lower)`. -/
def splitTokensAux : List Char → List Char → List (List Char)
  | [], acc => if acc.isEmpty then [] else [acc.reverse]
  | c :: rest, acc =>
    if isWordChar c then
      splitTokensAux rest (c :: acc)
    else if acc.isEmpty then
      splitTokensAux rest []
    else
      acc.reverse :: splitTokensAux rest []

def splitTokens (l : List Char) : List (List Char) := splitTokensAux l []

/-- `tokenize_words` (src/app.py lines 90-93): lower-case, then all maximal
runs of word characters, in order. -/
def tokenize_words (text : String) : List String :=
  (splitTokens (lower_chars text)).map (fun cs => String.mk cs)

/-- `compute_word_count` (src/app.py lines 95-96). -/
def compute_word_count (text : String) : Nat := (tokenize_words text).length

/-- A phrase is an infix of the text starting at this position and the
character right after it (if any) is not a word character: the right-hand
`\b` of a `\b<literal>\b` regex whose literal ends in a word character. -/
def startsPhraseAt (phrase text : List Char) : Bool :=
  phrase.isPrefixOf text &&
    (match text.drop phrase.length with
     | [] => true
     | c :: _ => !isWordChar c)

/-- Scan for a `\b<literal>\b` match. `prevWord` records whether the character
just before the current position is a word character (the left-hand `\b`). -/
def occursWBFrom (phrase : List Char) : List Char → Bool → Bool
  | [], _ => false
  | c :: rest, prevWord =>
    (!prevWord && startsPhraseAt phrase (c :: rest)) || occursWBFrom phrase rest (isWordChar c)

/-- `re.search(r"\b<phrase>\b", tl)` for a literal phrase that starts and ends
with a word character — the shape of every pattern in the rubric tables. -/
def occursWB (phrase : String) (tl : List Char) : Bool :=
  occursWBFrom phrase.toList tl false

/-- `find_any_pattern` (src/app.py lines 98-102): true iff some pattern in the
list matches the lower-cased text.  Each source pattern is a `\b`-wrapped
literal, so the table below stores the literals and `occursWB` supplies the
word boundaries. -/
def find_any_pattern (tl : List Char) (patterns : List String) : Bool :=
  patterns.any (fun p => occursWB p tl)

/-- Position of the first occurrence of `needle` in `hay`
(Python `str.find`, with `none` for -1). -/
def substrIdx (needle : List Char) : List Char → Option Nat
  | [] => if needle.isEmpty then some 0 else none
  | c :: rest =>
    if needle.isPrefixOf (c :: rest) then some 0
    else (substrIdx needle rest).map (· + 1)

/-- Python substring containment `phrase in tl`. -/
def containsSub (phrase : String) (tl : List Char) : Bool :=
  (substrIdx phrase.toList tl).isSome

/-- `FILLER_WORDS` (src/app.py lines 40-44); a Python set, modelled as a list
(only membership is ever used). -/
def FILLER_WORDS : List String :=
  ["um", "uh", "like", "you know", "so", "actually", "basically",
   "right", "i mean", "well", "kinda", "sort of", "okay", "ok",
   "hmm", "ah"]

/-- The single-token entries of `FILLER_WORDS`: the three multi-word entries
("you know", "i mean", "sort of") removed. -/
def SINGLE_TOKEN_FILLERS : List String :=
  ["um", "uh", "like", "so", "actually", "basically",
   "right", "well", "kinda", "okay", "ok", "hmm", "ah"]

/-- `MUST_HAVE_PATTERNS` (src/app.py lines 47-53), literals of the
`\b`-wrapped regexes, in source order. -/
def MUST_HAVE_PATTERNS : List (String × List String) :=
  [("name", ["my name is", "i am", "this is"]),
   ("age", ["years old", "year old", "age"]),
   ("school_class", ["school", "class", "grade", "college", "university"]),
   ("family", ["family", "mother", "father", "parents", "sister", "brother"]),
   ("hobbies", ["hobby", "hobbies", "i like to", "i love to", "in my free time"])]

def MUST_HAVE_POINTS : Nat := 4

/-- `GOOD_TO_HAVE_PATTERNS` (src/app.py lines 57-63). -/
def GOOD_TO_HAVE_PATTERNS : List (String × List String) :=
  [("about_family", ["family", "mother", "father", "parents"]),
   ("origin_location", ["i am from", "i\x27m from", "we live in", "from"]),
   ("ambition_goal", ["want to", "my goal", "my dream", "aspire", "ambition"]),
   ("interesting_fact", ["fun fact", "interesting", "unique"]),
   ("strengths_achievements", ["strength", "strong in", "achievement", "won", "award"])]

def GOOD_TO_HAVE_POINTS : Nat := 2

/-- `NORMAL_SALUTATIONS` (src/app.py line 67). -/
def NORMAL_SALUTATIONS : List String := ["hi", "hello"]

/-- `GOOD_SALUTATIONS` (src/app.py lines 68-71). -/
def GOOD_SALUTATIONS : List String :=
  ["good morning", "good afternoon", "good evening",
   "good day", "hello everyone", "hi everyone"]

/-- `EXCELLENT_PHRASES` (src/app.py lines 72-75). -/
def EXCELLENT_PHRASES : List String :=
  ["i am excited to introduce", "feeling great",
   "i\x27m excited to introduce", "i am excited to be here"]

/-- `get_salutation_score` (src/app.py lines 108-124).  The excellent and good
tiers use Python substring containment (`phrase in tl`); the normal tier uses
`re.search(r"\b<word>\b", tl)`. -/
def get_salutation_score (text : String) : Nat × String :=
  let tl := lower_chars text
  if EXCELLENT_PHRASES.any (fun p => containsSub p tl) then
    (5, "Excellent salutation (excited/feeling great) detected.")
  else if GOOD_SALUTATIONS.any (fun p => containsSub p tl) then
    (4, "Good salutation (Good morning/afternoon/evening etc.) detected.")
  else if NORMAL_SALUTATIONS.any (fun s => occursWB s tl) then
    (2, "Normal salutation (Hi/Hello) detected.")
  else
    (0, "No salutation detected.")

/-- `get_keyword_presence_score` (src/app.py lines 130-154): presence flags per
topic, 4 points per present must-have capped at 20, 2 points per present
good-to-have capped at 10, summed. -/
def get_keyword_presence_score (text : String) :
    Nat × List (String × Bool) × List (String × Bool) :=
  let tl := lower_chars text
  let must_have_present := MUST_HAVE_PATTERNS.map (fun kp => (kp.1, find_any_pattern tl kp.2))
  let good_to_have_present := GOOD_TO_HAVE_PATTERNS.map (fun kp => (kp.1, find_any_pattern tl kp.2))
  let must_score := min ((must_have_present.countP (fun kv => kv.2)) * MUST_HAVE_POINTS) 20
  let good_score := min ((good_to_have_present.countP (fun kv => kv.2)) * GOOD_TO_HAVE_POINTS) 10
  (must_score + good_score, must_have_present, good_to_have_present)

/-- `first_index_of_any` inside `get_flow_score` (src/app.py lines 164-170):
minimum of the found positions, `none` when no phrase occurs. -/
def first_index_of_any (tl : List Char) (phrases : List String) : Option Nat :=
  match phrases.filterMap (fun p => substrIdx p.toList tl) with
  | [] => none
  | x :: xs => some (xs.foldl min x)

/-- The four phrase groups of `get_flow_score` (src/app.py lines 172-175). -/
def FLOW_SALUTATION_PHRASES : List String := NORMAL_SALUTATIONS ++ GOOD_SALUTATIONS

def FLOW_BASIC_PHRASES : List String :=
  ["my name is", "i am", "i\x27m", "years old", "school", "class", "grade"]

def FLOW_ADDITIONAL_PHRASES : List String :=
  ["hobby", "hobbies", "fun fact", "goal", "dream", "family"]

def FLOW_CLOSING_PHRASES : List String :=
  ["thank you", "thanks for listening", "that\x27s all", "that is all"]

/-- `get_flow_score` (src/app.py lines 160-183). -/
def get_flow_score (text : String) : Nat × String :=
  let tl := lower_chars text
  let sal_index := first_index_of_any tl FLOW_SALUTATION_PHRASES
  let basic_index := first_index_of_any tl FLOW_BASIC_PHRASES
  let additional_index := first_index_of_any tl FLOW_ADDITIONAL_PHRASES
  let closing_index := first_index_of_any tl FLOW_CLOSING_PHRASES
  match sal_index, basic_index, additional_index, closing_index with
  | some s, some b, some a, some c =>
    if s ≤ b ∧ b ≤ a ∧ a ≤ c then
      (5, "Order followed: Salutation → Basic Details → Additional Details → Closing.")
    else
      (0, "Order not followed as expected.")
  | _, _, _, _ => (0, "Order not clearly followed (some sections missing).")

/-- `get_speech_rate_score` (src/app.py lines 189-205).  `None` duration and
non-positive duration both take the unscored branch (Python falsiness of `None`
and `0.0` plus the `<= 0` test). -/
def get_speech_rate_score (word_count : Nat) (duration_seconds : Option ℚ) :
    Option Nat × Option ℚ × String :=
  match duration_seconds with
  | none => (none, none, "Duration not provided – speech rate not scored.")
  | some d =>
    if d ≤ 0 then
      (none, none, "Duration not provided – speech rate not scored.")
    else
      let wpm : ℚ := (word_count : ℚ) / (d / 60)
      if 161 < wpm then (some 2, some wpm, "Too fast (>161 WPM).")
      else if 141 ≤ wpm ∧ wpm ≤ 160 then (some 6, some wpm, "Fast (141–160 WPM).")
      else if 111 ≤ wpm ∧ wpm ≤ 140 then (some 10, some wpm, "Ideal (111–140 WPM).")
      else if 81 ≤ wpm ∧ wpm ≤ 110 then (some 6, some wpm, "Slow (81–110 WPM).")
      else (some 2, some wpm, "Too slow (<80 WPM).")

/-- `get_grammar_score` (src/app.py lines 211-235) with the grammar
collaborator's successful answer (`len(grammar_tool.check(text))`) passed in as
`error_count`.  Returns (score, error count, errors per 100 words); the
formatted feedback string is display-only and omitted. -/
def get_grammar_score (word_count : Nat) (error_count : Nat) : Nat × Nat × ℚ :=
  if word_count = 0 then (0, 0, 0)
  else
    let errors_per_100 : ℚ := (error_count : ℚ) / (word_count : ℚ) * 100
    let grammar_quality : ℚ := 1 - min (errors_per_100 / 10) 1
    let score : Nat :=
      if 0.9 < grammar_quality then 10
      else if 0.7 ≤ grammar_quality ∧ grammar_quality ≤ 0.89 then 8
      else if 0.5 ≤ grammar_quality ∧ grammar_quality ≤ 0.69 then 6
      else if 0.3 ≤ grammar_quality ∧ grammar_quality ≤ 0.49 then 4
      else 2
    (score, error_count, errors_per_100)

/-- `get_vocabulary_score` (src/app.py lines 241-262): type-token ratio bands.
Returns (score, ttr); formatted feedback omitted. -/
def get_vocabulary_score (text : String) : Nat × ℚ :=
  let tokens := tokenize_words text
  let word_count := tokens.length
  if word_count = 0 then (0, 0)
  else
    let distinct_count := tokens.dedup.length
    let ttr : ℚ := (distinct_count : ℚ) / (word_count : ℚ)
    let score : Nat :=
      if 0.9 ≤ ttr ∧ ttr ≤ 1.0 then 10
      else if 0.7 ≤ ttr ∧ ttr ≤ 0.89 then 8
      else if 0.5 ≤ ttr ∧ ttr ≤ 0.69 then 6
      else if 0.3 ≤ ttr ∧ ttr ≤ 0.49 then 4
      else 2
    (score, ttr)

/-- `get_clarity_score` (src/app.py lines 268-293): token-level filler count
(`if t in FILLER_WORDS`), filler rate percentage, bands.  Returns
(score, filler count, filler rate); formatted feedback omitted. -/
def get_clarity_score (text : String) : Nat × Nat × ℚ :=
  let tokens := tokenize_words text
  let word_count := tokens.length
  if word_count = 0 then (0, 0, 0)
  else
    let filler_count := tokens.countP (fun t => decide (t ∈ FILLER_WORDS))
    let filler_rate : ℚ := (filler_count : ℚ) / (word_count : ℚ) * 100
    let score : Nat :=
      if 0 ≤ filler_rate ∧ filler_rate ≤ 3 then 15
      else if 4 ≤ filler_rate ∧ filler_rate ≤ 6 then 12
      else if 7 ≤ filler_rate ∧ filler_rate ≤ 9 then 9
      else if 10 ≤ filler_rate ∧ filler_rate ≤ 12 then 6
      else 3
    (score, filler_count, filler_rate)

/-- `get_engagement_score` (src/app.py lines 299-315) with the sentiment
collaborator's positive probability passed in as `pos_prob`. -/
def get_engagement_score (pos_prob : ℚ) : Nat :=
  if 0.9 ≤ pos_prob then 15
  else if 0.7 ≤ pos_prob ∧ pos_prob ≤ 0.89 then 12
  else if 0.5 ≤ pos_prob ∧ pos_prob ≤ 0.69 then 9
  else if 0.3 ≤ pos_prob ∧ pos_prob ≤ 0.49 then 6
  else 3

/-- `round(x, 2)`.  The pipeline only rounds the already-integer overall
score, where every tie-breaking convention (Python bankers rounding included)
agrees. -/
def round2 (q : ℚ) : ℚ := ((round (q * 100) : ℤ) : ℚ) / 100

/-- The result dictionary built by `score_transcript` (src/app.py lines
351-433), flattened into one record.  `wpm`, `errors_per_100_words`, `ttr` and
`filler_rate_percent` hold the raw values (the dictionary applies display
rounding to them); formatted feedback strings of the grammar/vocabulary/
clarity/engagement sub-scorers are display-only and omitted. -/
structure ScoreResult where
  overall_score : ℚ
  word_count : Nat
  cs_final : Nat
  cs_max : Nat
  sal_score : Nat
  sal_max : Nat
  sal_feedback : String
  kw_score : Nat
  kw_max : Nat
  must_have_present : List (String × Bool)
  good_to_have_present : List (String × Bool)
  flow_score : Nat
  flow_max : Nat
  flow_feedback : String
  sr_score : Option Nat
  sr_final : Nat
  sr_max : Nat
  wpm : Option ℚ
  sr_feedback : String
  lg_final : Nat
  lg_max : Nat
  grammar_score : Nat
  grammar_max : Nat
  error_count : Nat
  errors_per_100_words : ℚ
  vocab_score : Nat
  vocab_max : Nat
  ttr : ℚ
  clarity_final : Nat
  clarity_max : Nat
  filler_words_score : Nat
  filler_words_max : Nat
  filler_count : Nat
  filler_rate_percent : ℚ
  engagement_final : Nat
  engagement_max : Nat
  sentiment_score : Nat
  sentiment_max : Nat
  positive_probability : ℚ
  deriving Repr, DecidableEq

/-- `score_transcript` (src/app.py lines 321-435), with the collaborator
outputs (grammar error count, positive sentiment probability) as arguments. -/
def score_transcript (text : String) (duration_seconds : Option ℚ)
    (grammar_error_count : Nat) (pos_prob : ℚ) : ScoreResult :=
  let word_count := compute_word_count text
  let sal := get_salutation_score text
  let kw := get_keyword_presence_score text
  let flow := get_flow_score text
  let cs_total := sal.1 + kw.1 + flow.1
  let sr := get_speech_rate_score word_count duration_seconds
  let sr_total_for_overall := sr.1.getD 0
  let gr := get_grammar_score word_count grammar_error_count
  let voc := get_vocabulary_score text
  let lg_total := gr.1 + voc.1
  let cl := get_clarity_score text
  let eng := get_engagement_score pos_prob
  let overall : ℚ :=
    ((cs_total + sr_total_for_overall + lg_total + cl.1 + eng : Nat) : ℚ)
  let overall_clamped : ℚ := max 0 (min 100 overall)
  { overall_score := round2 overall_clamped
    word_count := word_count
    cs_final := cs_total
    cs_max := 40
    sal_score := sal.1
    sal_max := 5
    sal_feedback := sal.2
    kw_score := kw.1
    kw_max := 30
    must_have_present := kw.2.1
    good_to_have_present := kw.2.2
    flow_score := flow.1
    flow_max := 5
    flow_feedback := flow.2
    sr_score := sr.1
    sr_final := sr.1.getD 0
    sr_max := 10
    wpm := sr.2.1
    sr_feedback := sr.2.2
    lg_final := lg_total
    lg_max := 20
    grammar_score := gr.1
    grammar_max := 10
    error_count := gr.2.1
    errors_per_100_words := gr.2.2
    vocab_score := voc.1
    vocab_max := 10
    ttr := voc.2
    clarity_final := cl.1
    clarity_max := 15
    filler_words_score := cl.1
    filler_words_max := 15
    filler_count := cl.2.1
    filler_rate_percent := cl.2.2
    engagement_final := eng
    engagement_max := 15
    sentiment_score := eng
    sentiment_max := 15
    positive_probability := pos_prob }

/-- `score_transcript` with fallible collaborators: an `Except.error` models
the collaborator raising.  The grammar collaborator is consulted only when the
word count is nonzero (early return at src/app.py lines 212-213); the sentiment
collaborator is always consulted.  No handler exists in the source, so a
collaborator exception propagates out of the whole call. -/
def score_transcript_ex (text : String) (duration_seconds : Option ℚ)
    (grammar_check : Except Unit Nat) (sentiment : Except Unit ℚ) :
    Except Unit ScoreResult :=
  match (if compute_word_count text = 0 then Except.ok 0 else grammar_check), sentiment with
  | Except.ok e, Except.ok p => Except.ok (score_transcript text duration_seconds e p)
  | Except.error u, _ => Except.error u
  | _, Except.error u => Except.error u

/-- The score-button handler (src/app.py lines 501-514): a transcript that is
empty after `strip()` is refused with an error message and `score_transcript`
is never called; otherwise the transcript is scored.  Duration parsing
(lines 505-511) is done by the caller here. -/
def handle_score_click (transcript : String) (duration_seconds : Option ℚ)
    (grammar_check : Except Unit Nat) (sentiment : Except Unit ℚ) :
    Option (Except Unit ScoreResult) :=
  if transcript.toList.all Char.isWhitespace then
    none
  else
    some (score_transcript_ex transcript duration_seconds grammar_check sentiment)

/-! ## Bounds of the individual sub-scorers -/

lemma get_salutation_score_le (text : String) : (get_salutation_score text).1 ≤ 5 := by
  unfold get_salutation_score
  dsimp only
  split_ifs <;> simp

lemma get_keyword_presence_score_le (text : String) :
    (get_keyword_presence_score text).1 ≤ 30 := by
  unfold get_keyword_presence_score
  dsimp only
  simp only [MUST_HAVE_POINTS, GOOD_TO_HAVE_POINTS]
  omega

lemma get_flow_score_cases (text : String) :
    (get_flow_score text).1 = 0 ∨ (get_flow_score text).1 = 5 := by
  unfold get_flow_score
  dsimp only
  split
  · split_ifs <;> simp
  · simp

lemma get_speech_rate_final_le (wc : Nat) (d : Option ℚ) :
    (get_speech_rate_score wc d).1.getD 0 ≤ 10 := by
  unfold get_speech_rate_score
  rcases d with _ | d
  · simp
  · dsimp only
    split_ifs <;> simp

lemma get_grammar_score_le (wc e : Nat) : (get_grammar_score wc e).1 ≤ 10 := by
  unfold get_grammar_score
  dsimp only
  split_ifs <;> simp

lemma get_vocabulary_score_le (text : String) : (get_vocabulary_score text).1 ≤ 10 := by
  unfold get_vocabulary_score
  dsimp only
  split_ifs <;> simp

lemma get_clarity_score_le (text : String) : (get_clarity_score text).1 ≤ 15 := by
  unfold get_clarity_score
  dsimp only
  split_ifs <;> simp

lemma get_engagement_score_le (p : ℚ) : get_engagement_score p ≤ 15 := by
  unfold get_engagement_score
  split_ifs <;> simp

lemma round2_natCast (n : Nat) : round2 ((n : ℚ)) = (n : ℚ) := by
  unfold round2
  rw [show ((n : ℚ) * 100) = ((n * 100 : ℕ) : ℚ) by push_cast; ring, round_natCast]
  push_cast
  ring

example : tokenize_words "Hello, my name is Alex!" = ["hello", "my", "name", "is", "alex"] := by decide

example : compute_word_count "" = 0 := by decide

example : occursWB "i am" (lower_chars "Hi, I am Sam.") = true := by decide

example : occursWB "age" (lower_chars "the cabbage soup") = false := by decide

example : (get_speech_rate_score 120 (some 60)).1 = some 10 := by with_unfolding_all rfl

example : (get_salutation_score "Good morning everyone").1 = 4 := by decide

example : (get_flow_score "hi i am in school my hobby is art thank you").1 = 5 := by decide

/-! ## C1: category sums, category maxima, overall score -/

/-- C1: for every transcript, optional duration, and collaborator outputs,
each category's final score is the sum of its sub-item scores and is at most
the category's declared maximum, and the overall score is the sum of the five
category finals (Speech Rate already 0 when unscored), clamped to [0,100] and
rounded to two decimals — which, the total being a natural number at most 100,
equals the plain sum. -/
theorem c1_category_invariants (text : String) (dur : Option ℚ)
    (errC : Nat) (pos : ℚ) :
    (score_transcript text dur errC pos).cs_final =
        (score_transcript text dur errC pos).sal_score +
        (score_transcript text dur errC pos).kw_score +
        (score_transcript text dur errC pos).flow_score ∧
    (score_transcript text dur errC pos).cs_final ≤
      (score_transcript text dur errC pos).cs_max ∧
    (score_transcript text dur errC pos).sr_final ≤
      (score_transcript text dur errC pos).sr_max ∧
    (score_transcript text dur errC pos).lg_final =
        (score_transcript text dur errC pos).grammar_score +
        (score_transcript text dur errC pos).vocab_score ∧
    (score_transcript text dur errC pos).lg_final ≤
      (score_transcript text dur errC pos).lg_max ∧
    (score_transcript text dur errC pos).clarity_final =
      (score_transcript text dur errC pos).filler_words_score ∧
    (score_transcript text dur errC pos).clarity_final ≤
      (score_transcript text dur errC pos).clarity_max ∧
    (score_transcript text dur errC pos).engagement_final =
      (score_transcript text dur errC pos).sentiment_score ∧
    (score_transcript text dur errC pos).engagement_final ≤
      (score_transcript text dur errC pos).engagement_max ∧
    (score_transcript text dur errC pos).overall_score =
      round2 (max 0 (min 100
        (((score_transcript text dur errC pos).cs_final +
          (score_transcript text dur errC pos).sr_final +
          (score_transcript text dur errC pos).lg_final +
          (score_transcript text dur errC pos).clarity_final +
          (score_transcript text dur errC pos).engagement_final : Nat) : ℚ))) ∧
    (score_transcript text dur errC pos).overall_score =
      (((score_transcript text dur errC pos).cs_final +
        (score_transcript text dur errC pos).sr_final +
        (score_transcript text dur errC pos).lg_final +
        (score_transcript text dur errC pos).clarity_final +
        (score_transcript text dur errC pos).engagement_final : Nat) : ℚ) := by
  have hsal := get_salutation_score_le text
  have hkw := get_keyword_presence_score_le text
  have hflow := get_flow_score_cases text
  have hsr := get_speech_rate_final_le (compute_word_count text) dur
  have hgr := get_grammar_score_le (compute_word_count text) errC
  have hvoc := get_vocabulary_score_le text
  have hcl := get_clarity_score_le text
  have heng := get_engagement_score_le pos
  have hsum :
      (get_salutation_score text).1 + (get_keyword_presence_score text).1 +
        (get_flow_score text).1 +
        ((get_speech_rate_score (compute_word_count text) dur).1.getD 0) +
        ((get_grammar_score (compute_word_count text) errC).1 +
          (get_vocabulary_score text).1) +
        (get_clarity_score text).1 + get_engagement_score pos ≤ 100 := by
    omega
  refine ⟨rfl, ?_, ?_, rfl, ?_, rfl, ?_, rfl, ?_, rfl, ?_⟩
  · show (get_salutation_score text).1 + (get_keyword_presence_score text).1 +
      (get_flow_score text).1 ≤ 40
    omega
  · show (get_speech_rate_score (compute_word_count text) dur).1.getD 0 ≤ 10
    omega
  · show (get_grammar_score (compute_word_count text) errC).1 +
      (get_vocabulary_score text).1 ≤ 20
    omega
  · show (get_clarity_score text).1 ≤ 15
    omega
  · show get_engagement_score pos ≤ 15
    omega
  · show round2 (max 0 (min 100 _)) = _
    rw [min_eq_right (by exact_mod_cast hsum), max_eq_right (by positivity), round2_natCast]
    rfl

/-! ## C2: empty/whitespace-only transcripts -/

/-- C2 counterexample: `score_transcript` does NOT refuse a whitespace-only
transcript — called on `"   "` it produces a `ScoreResult` (overall 3 when
the sentiment positive probability is 0), so the scoring entry point itself
signals no `InvalidInput` failure. -/
theorem c2_counterexample :
    (score_transcript_ex "   " none (Except.ok 0) (Except.ok 0)).isOk = true ∧
    (score_transcript "   " none 0 0).overall_score = 3 := by
  constructor
  · with_unfolding_all rfl
  · with_unfolding_all rfl

/-- C2 (amended): the refusal of empty/whitespace-only transcripts lives in the
score-button handler, not in `score_transcript`: when every character of the
transcript is whitespace the handler shows an error and returns without
calling the scorer, so no `ScoreResult` is produced on that path. -/
theorem c2_blank_refused_by_click_handler (transcript : String)
    (dur : Option ℚ) (g : Except Unit Nat) (s : Except Unit ℚ)
    (h : transcript.toList.all Char.isWhitespace = true) :
    handle_score_click transcript dur g s = none := by
  unfold handle_score_click
  rw [if_pos h]

/-- C2 witness: the handler refuses the concrete whitespace transcript. -/
theorem c2_witness :
    handle_score_click "   " none (Except.ok 0) (Except.ok 0) = none :=
  c2_blank_refused_by_click_handler "   " none (Except.ok 0) (Except.ok 0) (by decide)

/-! ## C4: collaborator failures -/

/-- C4 counterexample: when the grammar collaborator raises on a non-empty
transcript, `score_transcript` crashes — no `ScoreResult` is returned, no
sub-score fails closed, and no degraded-result flag exists. -/
theorem c4_counterexample :
    (score_transcript_ex "hello" none (Except.error ()) (Except.ok 0)).isOk = false := by
  decide

/-- C4 (amended): the pipeline has no handler around either collaborator, so a
collaborator exception propagates out of the whole scoring call: a grammar
failure on any transcript with a nonzero word count aborts scoring, and a
sentiment failure aborts scoring regardless of the grammar result. -/
theorem c4_collaborator_failure_propagates (text : String) (dur : Option ℚ) :
    (∀ s : Except Unit ℚ, compute_word_count text ≠ 0 →
        score_transcript_ex text dur (Except.error ()) s = Except.error ()) ∧
    (∀ e : Nat,
        score_transcript_ex text dur (Except.ok e) (Except.error ()) = Except.error ()) := by
  constructor
  · intro s h
    unfold score_transcript_ex
    rw [if_neg h]
    cases s <;> rfl
  · intro e
    unfold score_transcript_ex
    by_cases h : compute_word_count text = 0
    · rw [if_pos h]
    · rw [if_neg h]

/-- C4 witness: a grammar-collaborator exception on `"oops"` propagates. -/
theorem c4_witness :
    score_transcript_ex "oops" none (Except.error ()) (Except.ok (1/2)) = Except.error () :=
  (c4_collaborator_failure_propagates "oops" none).1 (Except.ok (1/2)) (by decide)

/-! ## C8: determinism -/

/-- C8: the embedded pipeline is a pure function of the transcript, the
duration and the two collaborator responses — the source reads no other state
inside `score_transcript` — so two invocations on the same inputs return the
identical `ScoreResult`. -/
theorem c8_deterministic (text : String) (dur : Option ℚ)
    (g : Except Unit Nat) (s : Except Unit ℚ) :
    score_transcript_ex text dur g s = score_transcript_ex text dur g s := rfl

/-! ## C3 and C9: speech rate -/

/-- C3: duration absent or non-positive gives a null score and null WPM and the
aggregator contributes 0 for Speech Rate while keeping its maximum 10; a
positive duration gives wpm = wordCount / (duration/60) banded as
>161→2, [141,160]→6, [111,140]→10, [81,110]→6, <81→2; and wordCount 120 with
duration 60 is wpm 120, score 10, labelled Ideal. -/
theorem c3_speech_rate_spec :
    (∀ wc : Nat, get_speech_rate_score wc none =
        (none, none, "Duration not provided – speech rate not scored.")) ∧
    (∀ (wc : Nat) (d : ℚ), d ≤ 0 → get_speech_rate_score wc (some d) =
        (none, none, "Duration not provided – speech rate not scored.")) ∧
    (∀ (text : String) (dopt : Option ℚ) (errC : Nat) (pos : ℚ),
        (get_speech_rate_score (compute_word_count text) dopt).1 = none →
        (score_transcript text dopt errC pos).sr_final = 0 ∧
        (score_transcript text dopt errC pos).sr_max = 10) ∧
    (∀ (wc : Nat) (d : ℚ), 0 < d →
        (get_speech_rate_score wc (some d)).2.1 = some ((wc : ℚ) / (d / 60)) ∧
        (161 < (wc : ℚ) / (d / 60) →
          (get_speech_rate_score wc (some d)).1 = some 2) ∧
        (141 ≤ (wc : ℚ) / (d / 60) → (wc : ℚ) / (d / 60) ≤ 160 →
          (get_speech_rate_score wc (some d)).1 = some 6) ∧
        (111 ≤ (wc : ℚ) / (d / 60) → (wc : ℚ) / (d / 60) ≤ 140 →
          (get_speech_rate_score wc (some d)).1 = some 10) ∧
        (81 ≤ (wc : ℚ) / (d / 60) → (wc : ℚ) / (d / 60) ≤ 110 →
          (get_speech_rate_score wc (some d)).1 = some 6) ∧
        ((wc : ℚ) / (d / 60) < 81 →
          (get_speech_rate_score wc (some d)).1 = some 2)) ∧
    get_speech_rate_score 120 (some 60) = (some 10, some 120, "Ideal (111–140 WPM).") := by
  refine ⟨fun wc => rfl, ?_, ?_, ?_, by with_unfolding_all rfl⟩
  · intro wc d h
    unfold get_speech_rate_score
    dsimp only
    rw [if_pos h]
  · intro text dopt errC pos h
    refine ⟨?_, rfl⟩
    show (get_speech_rate_score (compute_word_count text) dopt).1.getD 0 = 0
    rw [h]
    rfl
  · intro wc d hd
    have hne : ¬ d ≤ 0 := not_le.mpr hd
    unfold get_speech_rate_score
    dsimp only
    rw [if_neg hne]
    refine ⟨?_, ?_, ?_, ?_, ?_, ?_⟩
    · split_ifs <;> rfl
    · intro h
      rw [if_pos h]
    · intro ha hb
      rw [if_neg (by rw [not_lt]; linarith), if_pos ⟨ha, hb⟩]
    · intro ha hb
      rw [if_neg (by rw [not_lt]; linarith),
        if_neg (fun hc => by linarith [hc.1]), if_pos ⟨ha, hb⟩]
    · intro ha hb
      rw [if_neg (by rw [not_lt]; linarith),
        if_neg (fun hc => by linarith [hc.1]),
        if_neg (fun hc => by linarith [hc.1]), if_pos ⟨ha, hb⟩]
    · intro h
      rw [if_neg (by rw [not_lt]; linarith),
        if_neg (fun hc => by linarith [hc.1]),
        if_neg (fun hc => by linarith [hc.1]),
        if_neg (fun hc => by linarith [hc.1])]

/-- C3 witness: the non-positive-duration clause applied at duration -2, and
the aggregator clause applied at an unscored call. -/
theorem c3_witness :
    get_speech_rate_score 7 (some (-2 : ℚ)) =
      (none, none, "Duration not provided – speech rate not scored.") ∧
    (score_transcript "hello there" none 0 0).sr_final = 0 :=
  ⟨c3_speech_rate_spec.2.1 7 (-2) (by norm_num),
   (c3_speech_rate_spec.2.2.1 "hello there" none 0 0 rfl).1⟩

/-- C9: a positive duration whose words-per-minute lands strictly inside a
band gap — (110,111), (140,141), or (160,161] — matches none of the listed
bands and falls through to the final else: score 2 with the "Too slow"
feedback, even just under (or at) 161. -/
theorem c9_band_gaps_fall_to_too_slow (wc : Nat) (d : ℚ) (hd : 0 < d)
    (h : (110 < (wc : ℚ) / (d / 60) ∧ (wc : ℚ) / (d / 60) < 111) ∨
         (140 < (wc : ℚ) / (d / 60) ∧ (wc : ℚ) / (d / 60) < 141) ∨
         (160 < (wc : ℚ) / (d / 60) ∧ (wc : ℚ) / (d / 60) ≤ 161)) :
    get_speech_rate_score wc (some d) =
      (some 2, some ((wc : ℚ) / (d / 60)), "Too slow (<80 WPM).") := by
  unfold get_speech_rate_score
  dsimp only
  rw [if_neg (not_le.mpr hd)]
  rcases h with ⟨ha, hb⟩ | ⟨ha, hb⟩ | ⟨ha, hb⟩ <;>
    rw [if_neg (by rw [not_lt]; linarith),
      if_neg (fun hc => by linarith [hc.1, hc.2]),
      if_neg (fun hc => by linarith [hc.1, hc.2]),
      if_neg (fun hc => by linarith [hc.1, hc.2])]

/-- C9 witness: 221 words in 120 seconds is 110.5 WPM — inside the (110,111)
gap — and scores 2 with the "Too slow" label. -/
theorem c9_witness :
    get_speech_rate_score 221 (some 120) =
      (some 2, some ((221 : ℚ) / ((120 : ℚ) / 60)), "Too slow (<80 WPM).") := by
  have h := c9_band_gaps_fall_to_too_slow 221 120 (by norm_num)
    (Or.inl ⟨by norm_num, by norm_num⟩)
  exact_mod_cast h

/-! ## C10: grammar quality band gaps -/

/-- C10: a grammar quality strictly inside a band gap — in (0.89,0.9]
(for instance exactly one error per 100 words, quality 0.9), (0.69,0.7) or
(0.49,0.5) — matches none of the listed bands and falls through to the lowest
score 2 rather than the adjacent higher band. -/
theorem c10_grammar_gaps_fall_to_lowest (wc err : Nat) (hwc : wc ≠ 0)
    (h : ((0.89 : ℚ) < 1 - min ((err : ℚ) / (wc : ℚ) * 100 / 10) 1 ∧
            1 - min ((err : ℚ) / (wc : ℚ) * 100 / 10) 1 ≤ 0.9) ∨
         ((0.69 : ℚ) < 1 - min ((err : ℚ) / (wc : ℚ) * 100 / 10) 1 ∧
            1 - min ((err : ℚ) / (wc : ℚ) * 100 / 10) 1 < 0.7) ∨
         ((0.49 : ℚ) < 1 - min ((err : ℚ) / (wc : ℚ) * 100 / 10) 1 ∧
            1 - min ((err : ℚ) / (wc : ℚ) * 100 / 10) 1 < 0.5)) :
    (get_grammar_score wc err).1 = 2 := by
  unfold get_grammar_score
  dsimp only
  rw [if_neg hwc]
  rcases h with ⟨ha, hb⟩ | ⟨ha, hb⟩ | ⟨ha, hb⟩ <;>
    rw [if_neg (by rw [not_lt]; linarith),
      if_neg (fun hc => by linarith [hc.1, hc.2]),
      if_neg (fun hc => by linarith [hc.1, hc.2]),
      if_neg (fun hc => by linarith [hc.1, hc.2])]

/-- C10 witness: 1 error in 100 words gives grammar quality exactly
0.9 — inside the (0.89,0.9] gap — and scores 2. -/
theorem c10_witness : (get_grammar_score 100 1).1 = 2 :=
  c10_grammar_gaps_fall_to_lowest 100 1 (by norm_num)
    (Or.inl (by norm_num [min_def]))

/-! ## C6: flow ordering heuristic -/

/-- C6: the flow score is 0 when any of the four phrase groups has no match in
the lower-cased text; when all four have matches, the score is 5 iff the
earliest match positions are non-decreasing (salutation ≤ basic ≤ additional ≤
closing, equality allowed) and 0 otherwise; the score is always 0 or 5. -/
theorem c6_flow_spec (text : String) :
    ((first_index_of_any (lower_chars text) FLOW_SALUTATION_PHRASES = none ∨
      first_index_of_any (lower_chars text) FLOW_BASIC_PHRASES = none ∨
      first_index_of_any (lower_chars text) FLOW_ADDITIONAL_PHRASES = none ∨
      first_index_of_any (lower_chars text) FLOW_CLOSING_PHRASES = none) →
        (get_flow_score text).1 = 0) ∧
    (∀ s b a c : Nat,
        first_index_of_any (lower_chars text) FLOW_SALUTATION_PHRASES = some s →
        first_index_of_any (lower_chars text) FLOW_BASIC_PHRASES = some b →
        first_index_of_any (lower_chars text) FLOW_ADDITIONAL_PHRASES = some a →
        first_index_of_any (lower_chars text) FLOW_CLOSING_PHRASES = some c →
        ((get_flow_score text).1 = 5 ↔ (s ≤ b ∧ b ≤ a ∧ a ≤ c))) ∧
    ((get_flow_score text).1 = 0 ∨ (get_flow_score text).1 = 5) := by
  refine ⟨?_, ?_, get_flow_score_cases text⟩
  · unfold get_flow_score
    dsimp only
    rcases first_index_of_any (lower_chars text) FLOW_SALUTATION_PHRASES with _ | s <;>
      rcases first_index_of_any (lower_chars text) FLOW_BASIC_PHRASES with _ | b <;>
        rcases first_index_of_any (lower_chars text) FLOW_ADDITIONAL_PHRASES with _ | a <;>
          rcases first_index_of_any (lower_chars text) FLOW_CLOSING_PHRASES with _ | c <;>
            intro h <;> first | rfl | simp at h
  · intro s b a c hs hb ha hc
    unfold get_flow_score
    dsimp only
    rw [hs, hb, ha, hc]
    dsimp only
    split_ifs with h
    · simp [h]
    · simp [h]

/-- C6 witness: a transcript with all four groups present in order
(positions 0 ≤ 3 ≤ 21 ≤ 34) scores 5. -/
theorem c6_witness :
    (get_flow_score "hi i am in school my hobby is art thank you").1 = 5 :=
  ((c6_flow_spec "hi i am in school my hobby is art thank you").2.1 0 3 21 34
    (by decide) (by decide) (by decide) (by decide)).mpr (by norm_num)

/-! ## C5: keyword presence -/

/-- C5: a topic is marked present iff at least one of its patterns matches the
lower-cased text; the score is 4 points per present must-have topic capped at
20 plus 2 points per present good-to-have topic capped at 10; and a transcript
matching all five must-have and all five good-to-have topics scores 30. -/
theorem c5_keyword_presence (text : String) :
    (get_keyword_presence_score text).2.1 =
      MUST_HAVE_PATTERNS.map (fun kp => (kp.1, find_any_pattern (lower_chars text) kp.2)) ∧
    (get_keyword_presence_score text).2.2 =
      GOOD_TO_HAVE_PATTERNS.map (fun kp => (kp.1, find_any_pattern (lower_chars text) kp.2)) ∧
    (get_keyword_presence_score text).1 =
      min ((MUST_HAVE_PATTERNS.countP (fun kp => find_any_pattern (lower_chars text) kp.2)) * 4) 20 +
      min ((GOOD_TO_HAVE_PATTERNS.countP (fun kp => find_any_pattern (lower_chars text) kp.2)) * 2) 10 ∧
    (get_keyword_presence_score
      "hello everyone my name is riya i am ten years old i study in school i love my family and my mother my hobbies are singing i am from india i want to become a doctor fun fact i am unique i won an award").1 = 30 := by
  refine ⟨rfl, rfl, ?_, by decide⟩
  unfold get_keyword_presence_score
  dsimp only
  rw [List.countP_map, List.countP_map]
  rfl

/-! ## C7: clarity / filler words -/

lemma splitTokensAux_wordChars (l : List Char) :
    ∀ acc : List Char, (∀ c ∈ acc, isWordChar c = true) →
      ∀ t ∈ splitTokensAux l acc, ∀ c ∈ t, isWordChar c = true := by
  induction l with
  | nil =>
    intro acc hacc t ht c hc
    unfold splitTokensAux at ht
    by_cases he : acc.isEmpty
    · rw [if_pos he] at ht
      exact absurd ht (List.not_mem_nil t)
    · rw [if_neg he] at ht
      rcases List.mem_singleton.mp ht with rfl
      exact hacc c (List.mem_reverse.mp hc)
  | cons d rest ih =>
    intro acc hacc t ht c hc
    unfold splitTokensAux at ht
    by_cases hw : isWordChar d
    · rw [if_pos hw] at ht
      refine ih (d :: acc) ?_ t ht c hc
      intro x hx
      rcases List.mem_cons.mp hx with rfl | hx
      · exact hw
      · exact hacc x hx
    · rw [if_neg hw] at ht
      by_cases he : acc.isEmpty
      · rw [if_pos he] at ht
        exact ih [] (by simp) t ht c hc
      · rw [if_neg he] at ht
        rcases List.mem_cons.mp ht with rfl | ht'
        · exact hacc c (List.mem_reverse.mp hc)
        · exact ih [] (by simp) t ht' c hc

/-- Every token produced by the tokenizer consists of word characters only. -/
lemma tokenize_words_wordChars (text : String) :
    ∀ t ∈ tokenize_words text, ∀ c ∈ t.data, isWordChar c = true := by
  intro t ht c hc
  unfold tokenize_words splitTokens at ht
  rcases List.mem_map.mp ht with ⟨cs, hcs, rfl⟩
  exact splitTokensAux_wordChars (lower_chars text) [] (by simp) cs hcs c hc

/-- A token made of word characters is never one of the three multi-word
filler entries, so its `FILLER_WORDS` membership coincides with membership in
the single-token sub-list. -/
lemma filler_membership_of_wordChars (t : String)
    (hall : ∀ c ∈ t.data, isWordChar c = true) :
    (t ∈ FILLER_WORDS) ↔ (t ∈ SINGLE_TOKEN_FILLERS) := by
  have h1 : t ≠ "you know" := by
    rintro rfl
    exact absurd (hall ' ' (by decide)) (by decide)
  have h2 : t ≠ "i mean" := by
    rintro rfl
    exact absurd (hall ' ' (by decide)) (by decide)
  have h3 : t ≠ "sort of" := by
    rintro rfl
    exact absurd (hall ' ' (by decide)) (by decide)
  simp only [FILLER_WORDS, SINGLE_TOKEN_FILLERS, List.mem_cons, List.not_mem_nil, or_false]
  tauto

set_option maxRecDepth 4000 in
/-- C7: on a nonempty token list the filler count only ever counts single
tokens from the filler set (multi-word entries cannot contribute), the filler
rate is count/wordCount×100, the rate bands are [0,3]→15, [4,6]→12, [7,9]→9,
[10,12]→6, ≥13→3; a zero-token transcript scores 0; and exactly 3 fillers out
of 100 tokens gives rate 3 and score 15. -/
theorem c7_clarity_spec :
    (∀ text : String, (tokenize_words text).length = 0 →
        get_clarity_score text = (0, 0, 0)) ∧
    (∀ text : String, (tokenize_words text).length ≠ 0 →
        (get_clarity_score text).2.1 =
          (tokenize_words text).countP (fun t => decide (t ∈ SINGLE_TOKEN_FILLERS)) ∧
        (get_clarity_score text).2.2 =
          (((get_clarity_score text).2.1 : ℚ) / ((tokenize_words text).length : ℚ)) * 100 ∧
        (0 ≤ (get_clarity_score text).2.2 → (get_clarity_score text).2.2 ≤ 3 →
          (get_clarity_score text).1 = 15) ∧
        (4 ≤ (get_clarity_score text).2.2 → (get_clarity_score text).2.2 ≤ 6 →
          (get_clarity_score text).1 = 12) ∧
        (7 ≤ (get_clarity_score text).2.2 → (get_clarity_score text).2.2 ≤ 9 →
          (get_clarity_score text).1 = 9) ∧
        (10 ≤ (get_clarity_score text).2.2 → (get_clarity_score text).2.2 ≤ 12 →
          (get_clarity_score text).1 = 6) ∧
        (13 ≤ (get_clarity_score text).2.2 → (get_clarity_score text).1 = 3)) ∧
    (get_clarity_score ("um um um " ++ String.intercalate " " (List.replicate 97 "go"))).1 = 15 ∧
    (get_clarity_score ("um um um " ++ String.intercalate " " (List.replicate 97 "go"))).2.2 = 3 := by
  refine ⟨?_, ?_, by with_unfolding_all rfl, by with_unfolding_all rfl⟩
  · intro text h
    unfold get_clarity_score
    dsimp only
    rw [if_pos h]
  · intro text h
    have hcount : (tokenize_words text).countP (fun t => decide (t ∈ FILLER_WORDS)) =
        (tokenize_words text).countP (fun t => decide (t ∈ SINGLE_TOKEN_FILLERS)) := by
      refine List.countP_congr ?_
      intro t ht
      simp only [decide_eq_true_eq]
      exact filler_membership_of_wordChars t (tokenize_words_wordChars text t ht)
    unfold get_clarity_score
    dsimp only
    rw [if_neg h]
    dsimp only
    refine ⟨hcount, rfl, ?_, ?_, ?_, ?_, ?_⟩
    · intro h0 h3
      rw [if_pos ⟨h0, h3⟩]
    · intro ha hb
      rw [if_neg (fun hc => by linarith [hc.1, hc.2]), if_pos ⟨ha, hb⟩]
    · intro ha hb
      rw [if_neg (fun hc => by linarith [hc.1, hc.2]),
        if_neg (fun hc => by linarith [hc.1, hc.2]), if_pos ⟨ha, hb⟩]
    · intro ha hb
      rw [if_neg (fun hc => by linarith [hc.1, hc.2]),
        if_neg (fun hc => by linarith [hc.1, hc.2]),
        if_neg (fun hc => by linarith [hc.1, hc.2]), if_pos ⟨ha, hb⟩]
    · intro ha
      rw [if_neg (fun hc => by linarith [hc.1, hc.2]),
        if_neg (fun hc => by linarith [hc.1, hc.2]),
        if_neg (fun hc => by linarith [hc.1, hc.2]),
        if_neg (fun hc => by linarith [hc.1, hc.2])]

/-- C7 witness: "um" is a single filler token out of one word — rate 100,
banded to the lowest clarity score 3. -/
theorem c7_witness : (get_clarity_score "um").1 = 3 := by
  have h := c7_clarity_spec.2.1 "um" (by decide)
  have hrate : (get_clarity_score "um").2.2 = 100 := by with_unfolding_all rfl
  exact h.2.2.2.2.2.2 (by rw [hrate]; norm_num)
